import Mathlib

/-!
A verification development for the pizza-ordering REST backend
(`src/2/src/dataStore.js` — the `User`, `Order`, `Token` handler classes —
together with `src/2/src/handlers/Item.js` and the `helpers` module).

The JavaScript is shallowly embedded:

* JS numbers used as money/quantities are modelled as `Rat` (the code only
  adds and multiplies decimal amounts; binary-float rounding is out of scope
  per the spec's numeric-semantics note), timestamps (`Date.now()`
  milliseconds) as `Int`.
* `undefined`/missing JSON fields are `Option.none`; where a JS parameter
  distinguishes `undefined` / `null` / object (all relevant to the dynamic
  setters) the three-way type `JsObj` is used.
* JS objects used as item→quantity or id→record maps are association lists
  in insertion order (`Object.keys` enumerates string keys in insertion
  order, which is the order the code built them in).
* The flat-file document store is a `World` of association lists; each
  fallible `dataStore` write is governed by a Boolean oracle in `Oracles`
  (the success/failure of the underlying `fs` call).  `Date.now()` values
  are explicit arguments.  Outbound HTTPS calls (Stripe, Mailgun) are
  oracles: the Stripe response is a function of the charge request, the
  Mailgun send yields error-first success or failure.
* Callbacks are direct-style: each operation returns its callback outcome
  (status + body, as an inductive mirroring the call sites) together with
  the updated `World` and the externally visible effects (charge requests
  issued, invoice mails attempted).
-/

namespace PizzaApp

attribute [local semireducible] Rat.add Rat.mul Rat.sub Rat.inv

/-- A JS value in a position where the code tests `typeof v === "object"`
and separately the truthiness of `v`: `undefined` (or any non-object),
`null` (which *is* `typeof "object"` but falsy), or a real object. -/
inductive JsObj (α : Type) where
  | absent
  | null
  | obj (a : α)
deriving DecidableEq, Repr

/-- item id ↦ quantity map (`user.cart`, `order.items`). -/
abbrev ItemMap := List (String × Rat)

/-- JS `String.prototype.trim()` (strip leading/trailing whitespace),
re-implemented by structural recursion over the character list so that
concrete instances evaluate inside the kernel (`String.trim` of the Lean
runtime is well-founded recursion over byte positions and does not). -/
def jsTrim (s : String) : String :=
  ⟨((s.data.dropWhile Char.isWhitespace).reverse.dropWhile Char.isWhitespace).reverse⟩

/-- JS `String.prototype.substr(n)` — the suffix from character index `n` —
likewise by structural recursion. -/
def jsDrop (s : String) (n : Nat) : String := ⟨s.data.drop n⟩

namespace helpers

/-- `helpers.isValidItemId`: a string whose trimmed length is 10. -/
def isValidItemId (value : String) : Bool := (jsTrim value).length == 10

/-- `helpers.isValidOrderId`: a string whose trimmed length is 20. -/
def isValidOrderId (value : String) : Bool := (jsTrim value).length == 20

/-- `Token.isValidTokenId`: a string whose trimmed length is 20. -/
def isValidTokenId (value : String) : Bool := (jsTrim value).length == 20

/-- `helpers.isValidPassword`: a string whose trimmed length is ≥ 6. -/
def isValidPassword (value : String) : Bool := 6 ≤ (jsTrim value).length

/-- A character matched by the `[A-Za-z0-9._]` class of `EMAIL_REGEXP`. -/
def isEmailNameChar (c : Char) : Bool := c.isAlpha || c.isDigit || c == '.' || c == '_'

/-- `helpers.isValidEmail`: the anchored regex
`/^[A-Za-z0-9._]+\@[A-Za-z0-9._]+\.[A-Za-z]{2,3}$/i` tested on `value.trim()`.
Since `@` is outside both classes the string splits at its unique `@`; the
`[A-Za-z]{2,3}` suffix contains no dot, so it is the segment after the last
dot of the domain part. -/
def isValidEmail (value : String) : Bool :=
  match (jsTrim value).data.splitOn '@' with
  | [nm, dom] =>
      let parts := dom.splitOn '.'
      nm ≠ [] && nm.all isEmailNameChar &&
      match parts.reverse with
      | tld :: restRev =>
          let d := List.intercalate ['.'] restRev.reverse
          restRev ≠ [] && d ≠ [] && d.all isEmailNameChar &&
          2 ≤ tld.length && tld.length ≤ 3 && tld.all Char.isAlpha
      | [] => false
  | _ => false

/-- `helpers.hash`: the HMAC-SHA256 hex digest is opaque at this level of
modelling (no claim inspects digests); only that it is a deterministic
function of the input string matters to the flows below. -/
def hash (str : String) : Option String :=
  if 0 < str.length then some ("hmac-sha256:" ++ str) else none

/-- The module-level `IDs` registry of `helpers`: the set of full 21-character
candidate strings generated so far in this process. -/
structure RandomState where
  ids : List String
deriving DecidableEq, Repr

/-- The `do { sId = Date.now().toString(36) + Math.random().toString(36)... }
while (IDs.hasOwnProperty(sId) || sId.length !== 21)` loop of
`helpers.createRandomString`: consume candidates from the environment's
stream until one is fresh and exactly 21 characters long, then register it. -/
def genLoop (st : RandomState) : List String → Option (String × RandomState)
  | [] => none
  | sId :: rest =>
      if st.ids.contains sId || sId.length ≠ 21 then genLoop st rest
      else some (sId, ⟨sId :: st.ids⟩)

/-- `helpers.createRandomString(strLength)`: normalise the length, run the
generation loop, register the full candidate, and return
`sId.substr(21 - strLength)` — the candidate's last `strLength` characters.
`cands` is the stream of `Date.now().toString(36)+Math.random().toString(36)`
concatenations the environment produces; `none` models non-termination of
the loop (stream exhausted). -/
def createRandomString (strLength : Nat) (st : RandomState) (cands : List String) :
    Option (String × RandomState) :=
  let len := if 0 < strLength && strLength ≤ 21 then strLength else 21
  match genLoop st cands with
  | none => none
  | some (sId, st') => some (jsDrop sId (21 - len), st')

end helpers

/-! ### Item (catalog entry)

`Item.post` stores each item record under the file key `item.id`, and the
record's `id` field is set through the validating `id` setter, so for every
store produced by this code the file key equals the record's `id`.  The
catalog is therefore embedded as a list of records looked up by `id`:
`Item.hashmap`'s `items[itemId]` and `Item.list`'s `item.id` enumeration
coincide on it. -/

/-- The JSON shape produced by `Item.prototype.toJSON` (description/imageURL
omitted: no modelled flow reads them). -/
structure ItemRec where
  id : String
  name : String
  unitPrice : Rat
deriving DecidableEq, Repr

namespace Item

/-- `Item.isValidId` = `helpers.isValidItemId`. -/
def isValidId (value : String) : Bool := helpers.isValidItemId value

/-- `Item.isValidPrice`: a number strictly greater than 0. -/
def isValidPrice (value : Rat) : Bool := 0 < value

/-- Lookup in the hashmap built by `Item.hashmap` (`items[cartItem]`). -/
def findById (catalog : List ItemRec) (key : String) : Option ItemRec :=
  catalog.find? (fun it => it.id == key)

end Item

/-! ### Order -/

/-- The parsed Stripe charge response (`JSON.parse(paymentResult)`), keeping
the fields `Order.prototype.complete` inspects. -/
structure Payment where
  object : String
  paid : Bool
  status : String
deriving DecidableEq, Repr

/-- A charge request as `Order.prototype.makePayment` issues it to
`api.stripe.com/v1/charges`. -/
structure ChargeReq where
  amount : Rat
  currency : String
  source : String
deriving DecidableEq, Repr

/-- The outcome of the `helpers.ajax` call to Stripe: an error-first failure,
or a 200/201 body (already parsed). -/
inductive GatewayResp where
  | err
  | ok (p : Payment)
deriving DecidableEq, Repr

/-- The internal state of an `Order` instance (the `_`-prefixed backing
fields).  `_createdOn` and `_total` are always assigned by the constructor,
so they are not optional. -/
structure OrderState where
  _id : Option String := none
  _email : Option String := none
  _createdOn : Int := 0
  _completedOn : Option Int := none
  _paymentInfo : Option Payment := none
  _total : Rat := 0
  _items : Option ItemMap := none
deriving DecidableEq, Repr

/-- The JSON shape produced by `Order.prototype.toJSON` (and stored in the
`orders` collection).  `completedOn` is the raw `_completedOn` (the getter
has no `|| null`); `items` is `Object.assign({}, this._items)`. -/
structure OrderRec where
  id : Option String
  email : Option String
  createdOn : Int
  completedOn : Option Int
  paymentInfo : Option Payment
  total : Rat
  items : ItemMap
deriving DecidableEq, Repr

/-- The constructor parameter object of `new Order(params)`. -/
structure OrderParams where
  id : Option String := none
  email : Option String := none
  createdOn : Option Int := none
  completedOn : Option Int := none
  paymentInfo : Option Payment := none
  total : Option Rat := none
  items : JsObj ItemMap := .absent
deriving DecidableEq, Repr

namespace Order

/-- `Order.isValidEmail` = `helpers.isValidEmail`. -/
def isValidEmail (value : String) : Bool := helpers.isValidEmail value

/-- `Order.isValidOrderId` = `helpers.isValidOrderId`. -/
def isValidOrderId (value : String) : Bool := helpers.isValidOrderId value

/-- `set id (value)`: assign `value.trim()` when it is a valid order id,
otherwise leave `_id` unchanged (`if (cond) this._id = … ` written as a
conditional assignment).  `none` is an `undefined` argument. -/
def setId (o : OrderState) (value : Option String) : OrderState :=
  { o with _id := match value with
    | some s => if isValidOrderId s then some (jsTrim s) else o._id
    | none => o._id }

/-- `set email (value)`. -/
def setEmail (o : OrderState) (value : Option String) : OrderState :=
  { o with _email := match value with
    | some s => if isValidEmail s then some (jsTrim s) else o._email
    | none => o._email }

/-- `set createdOn (value)`: assign when the value is a number. -/
def setCreatedOn (o : OrderState) (value : Option Int) : OrderState :=
  { o with _createdOn := match value with
    | some v => v
    | none => o._createdOn }

/-- `set completedOn (value)`: assign only when the value is a number and
`value >= this._createdOn` (a comparison against `undefined` is false in JS,
matching `_createdOn` being always set here). -/
def setCompletedOn (o : OrderState) (value : Option Int) : OrderState :=
  { o with _completedOn := match value with
    | some v => if o._createdOn ≤ v then some v else o._completedOn
    | none => o._completedOn }

/-- `set paymentInfo (value)`: `value && (string || object) ? value : null` —
an unconditional assignment; a present `Payment` object is truthy. -/
def setPaymentInfo (o : OrderState) (value : Option Payment) : OrderState :=
  { o with _paymentInfo := value }

/-- `set total (value)`: assign when the value is a number `>= 0`. -/
def setTotal (o : OrderState) (value : Option Rat) : OrderState :=
  { o with _total := match value with
    | some v => if 0 ≤ v then v else o._total
    | none => o._total }

/-- `set items (value)`: for a truthy object, assign it wholly when every
key is a valid item id, otherwise keep the previous `_items`; `null` and
non-objects are ignored. -/
def setItems (o : OrderState) (value : JsObj ItemMap) : OrderState :=
  { o with _items := match value with
    | .obj m => if m.all (fun kv => Item.isValidId kv.1) then some m else o._items
    | _ => o._items }

/-- `new Order(params)`: each field goes through its setter; `createdOn`
defaults to `Date.now()` (`now`), `completedOn`/`total` re-check in their
setters exactly the constructor's own conditionals, and `items` defaults to
`{}` when `typeof params.items !== "object"` (JS `null` *is* of object type
and is passed through to the setter, which ignores it). -/
def mk (p : OrderParams) (now : Int) : OrderState :=
  let o : OrderState := {}
  let o := setId o p.id
  let o := setEmail o p.email
  let o := setCreatedOn o (some (p.createdOn.getD now))
  let o := setCompletedOn o p.completedOn
  let o := setPaymentInfo o p.paymentInfo
  let o := setTotal o (some (match p.total with
    | some v => if 0 ≤ v then v else 0
    | none => 0))
  let o := setItems o (match p.items with | .absent => .obj [] | x => x)
  o

/-- `Order.prototype.toJSON`. -/
def toJSON (o : OrderState) : OrderRec :=
  { id := o._id
    email := o._email
    createdOn := o._createdOn
    completedOn := o._completedOn
    paymentInfo := o._paymentInfo
    total := o._total
    items := o._items.getD [] }

end Order

/-- Rebuilding constructor params from a stored/returned order JSON
(`new Order(orderData)`). -/
def OrderRec.toParams (r : OrderRec) : OrderParams :=
  { id := r.id
    email := r.email
    createdOn := some r.createdOn
    completedOn := r.completedOn
    paymentInfo := r.paymentInfo
    total := some r.total
    items := .obj r.items }

namespace Order

/-- The total computation of `Order.prototype.complete`:
`Object.keys(orderItemsMap).reduce((sum, cartItem) => { if (items[cartItem])
sum += items[cartItem].unitPrice * orderItemsMap[cartItem]; return sum }, 0)`. -/
def orderTotal (orderItemsMap : ItemMap) (catalog : List ItemRec) : Rat :=
  orderItemsMap.foldl (fun sum kv =>
    match Item.findById catalog kv.1 with
    | some it => sum + it.unitPrice * kv.2
    | none => sum) 0

end Order

/-! ### Token -/

/-- The JSON shape of `Token.prototype.toJSON` (stored in the `tokens`
collection): all three getters fall back to `null`. -/
structure TokenRec where
  email : Option String
  id : Option String
  expiration : Option Int
deriving DecidableEq, Repr

/-- The internal state of a `Token` instance. -/
structure TokenState where
  _email : Option String := none
  _id : Option String := none
  _expiration : Option Int := none
deriving DecidableEq, Repr

/-! ### The document store and the environment oracles -/

/-- The JSON shape of `User.prototype.toJSON` (stored in the `users`
collection). -/
structure UserRec where
  email : Option String
  password : Option String
  firstName : String
  lastName : String
  streetAddress : String
  cart : ItemMap
  orders : List String
deriving DecidableEq, Repr

/-- The flat-file document store: one association list per collection
(file name ↦ parsed JSON).  The catalog is keyed by the record `id`
(see the Item section note). -/
structure World where
  users : List (String × UserRec) := []
  tokens : List (String × TokenRec) := []
  orders : List (String × OrderRec) := []
  catalog : List ItemRec := []
deriving DecidableEq, Repr

/-- `dataStore.update`/`create` success: overwrite or add the record for a
key. -/
def storePut (l : List (String × α)) (k : String) (v : α) : List (String × α) :=
  (k, v) :: l.filter (fun kv => kv.1 ≠ k)

/-- `dataStore.delete` success: unlink the record for a key. -/
def storeErase (l : List (String × α)) (k : String) : List (String × α) :=
  l.filter (fun kv => kv.1 ≠ k)

/-- The non-deterministic environment of one request, fixed up front:
how the Stripe gateway answers each charge request, whether the Mailgun
send succeeds, and whether each fallible `dataStore` write succeeds. -/
structure Oracles where
  gateway : ChargeReq → GatewayResp
  mailOk : Bool := true
  orderCreateOk : Bool := true
  orderWriteOk : Bool := true
  userWriteOk : Bool := true
  tokenWriteOk : Bool := true

namespace Token

/-- `Token.isValidUserId` = `helpers.isValidEmail`. -/
def isValidUserId (value : String) : Bool := helpers.isValidEmail value

/-- `set email (value)`. -/
def setEmail (t : TokenState) (value : Option String) : TokenState :=
  { t with _email := match value with
    | some s => if isValidUserId s then some (jsTrim s) else t._email
    | none => t._email }

/-- `set id (value)`. -/
def setId (t : TokenState) (value : Option String) : TokenState :=
  { t with _id := match value with
    | some s => if helpers.isValidTokenId s then some (jsTrim s) else t._id
    | none => t._id }

/-- `set expiration (value)`: `typeof value === "number" ? value : null` —
an unconditional assignment. -/
def setExpiration (t : TokenState) (value : Option Int) : TokenState :=
  { t with _expiration := value }

/-- `new Token(params)`. -/
def mk (email id : Option String) (expiration : Option Int) : TokenState :=
  let t : TokenState := {}
  let t := setEmail t email
  let t := setId t id
  let t := setExpiration t expiration
  t

/-- The getter `get expiration () { return this._expiration || null; }`
as it enters the numeric comparison `... > Date.now()`: `null` coerces to
0, and a stored 0 is falsy and becomes `null` hence 0 as well — so the
compared number is `_expiration.getD 0`. -/
def expirationNum (t : TokenState) : Int := t._expiration.getD 0

/-- `Token.prototype.toJSON` (getters with their `|| null` fallbacks; an
expiration of 0 is falsy and serialises as `null`). -/
def toJSON (t : TokenState) : TokenRec :=
  { email := t._email
    id := t._id
    expiration := match t._expiration with
      | some e => if e ≠ 0 then some e else none
      | none => none }

/-- `Token.delete` (the static handler, reached from
`token.delete()` with `queryParams.id = this.id`): read the record, rebuild
a `Token` from it, and unlink the file when the rebuilt id matches.
Returns the updated world (the callback statuses are not consumed by the
modelled callers). -/
def deleteById (id? : Option String) (w : World) : World :=
  match id? with
  | none => w
  | some id =>
      if helpers.isValidTokenId id then
        let key := jsTrim id
        match w.tokens.lookup key with
        | some data =>
            let tk := mk data.email data.id data.expiration
            if tk._id == some key then { w with tokens := storeErase w.tokens key }
            else w
        | none => w
      else w

/-- `Token.prototype.isValid(callback)`: read the token record by this id,
adopt its raw `expiration` (`this._expiration = data.expiration`, bypassing
the setter), succeed when `data.id === this.id && this.expiration >
Date.now()`; otherwise call back `false` and, when the record was found,
delete it as a side effect.  Returns (the callback value, the updated
token instance, the updated world). -/
def isValid (t : TokenState) (w : World) (now : Int) : Bool × TokenState × World :=
  match t._id with
  | none => (false, t, w)
  | some id =>
      match w.tokens.lookup id with
      | none => (false, t, w)
      | some data =>
          let t' := { t with _expiration := data.expiration }
          if data.id == some id && now < expirationNum t' then
            (true, t', w)
          else
            (false, t', deleteById (some id) w)

/-- `Token.put` with `{ id: this.id, extend: true }`, as invoked by
`token.extend()`: a non-expired token gets `expiration = Date.now() +
1000*60*60` and is re-stored (write fallible); an expired one is deleted. -/
def extend (t : TokenState) (w : World) (orc : Oracles) (now : Int) : World :=
  match t._id with
  | none => w
  | some id =>
      if helpers.isValidTokenId id then
        let key := jsTrim id
        match w.tokens.lookup key with
        | none => w
        | some data =>
            let tk := mk data.email data.id data.expiration
            if tk._id == some key && now < expirationNum tk then
              let tk' := setExpiration tk (some (now + 1000 * 60 * 60))
              if orc.tokenWriteOk then { w with tokens := storePut w.tokens key (toJSON tk') }
              else w
            else if tk._id == some key then
              { w with tokens := storeErase w.tokens key }
            else w
      else w

end Token

/-! ### Order — the HTTP-level handlers and the completion algorithm -/

namespace Order

/-- The callback outcomes of `Order.post`. -/
inductive PostRes where
  | ok (body : OrderRec)   -- 200, the new order JSON
  | createFailed           -- 500 'Could not create the new order'
  | emptyCart              -- 400 "Cannot create order. User's cart is empty"
  | missingField           -- 400 'Missing required field'
deriving DecidableEq, Repr

/-- The callback outcomes of `Order.put`. -/
inductive PutRes where
  | ok (body : OrderRec)   -- 200, the updated order JSON
  | couldNotUpdate         -- 500 'Could not update the specified order.'
  | idMismatch             -- 400 'Could not update the specified order'
  | notExists              -- 400 'Specified order does not exist.'
  | nothingToUpdate        -- 400 'Missing fields to update.'
  | missingField           -- 400 'Missing required field.'
deriving DecidableEq, Repr

/-- The HTTP status code of a `Order.put` callback. -/
def PutRes.status : PutRes → Nat
  | .ok _ => 200
  | .couldNotUpdate => 500
  | _ => 400

/-- `Order.post(data, callback)`: validate the owner email, list the catalog
(`Item.list`, successful-listing case), drop every requested key that is not
a catalog item id, and when any key survives build the order (with a fresh
20-character id — `Order.createUniqueId()`, whose output is the `newId`
argument here; the allocator itself is `helpers.createRandomString`) and
persist it as a new record. -/
def post (email? : Option String) (items? : Option ItemMap) (w : World)
    (orc : Oracles) (now : Int) (newId : String) : PostRes × World :=
  match email? with
  | none => (.missingField, w)
  | some e =>
      if isValidEmail e then
        let email := jsTrim e
        let itemIDs := w.catalog.map (fun it => it.id)
        let cartItems := items?.getD []
        let filtered := cartItems.filter (fun kv => itemIDs.contains kv.1)
        if filtered ≠ [] then
          let order := mk { id := some newId, email := some email, items := .obj filtered } now
          let orderData := toJSON order
          let key := order._id.getD "null"
          if orc.orderCreateOk && (w.orders.lookup key).isNone then
            (.ok orderData, { w with orders := storePut w.orders key orderData })
          else (.createFailed, w)
        else (.emptyCart, w)
      else (.missingField, w)

/-- The payload of an `Order.put` request.  `id` is a `String`: the code
dereferences `data.payload.id.trim()` unconditionally (an absent id throws
before any effect; all modelled callers supply one). -/
structure PutPayload where
  id : String
  email : Option String := none
  completedOn : Option Int := none
  paymentInfo : Option Payment := none
  total : Option Rat := none
  items : Option ItemMap := none
deriving Repr

/-- `Order.put(data, callback)`: validate the id, collect the optional
fields, filter the payload items against the catalog, and if anything
truthy was sent, read the stored record, overwrite the sent fields, rebuild
the order through the validating constructor, and persist it when the
rebuilt id matches.  JS truthiness: a `completedOn` or `total` equal to 0
is falsy and skipped; an object (even `{}`) is truthy. -/
def put (p : PutPayload) (w : World) (orc : Oracles) (now : Int) : PutRes × World :=
  let idt := jsTrim p.id
  if isValidOrderId idt then
    let email := match p.email with
      | some s => if isValidEmail s then some (jsTrim s) else none
      | none => none
    let completedOnT : Bool := match p.completedOn with
      | some t => t ≠ 0
      | none => false
    let totalT : Bool := match p.total with
      | some t => t ≠ 0
      | none => false
    let totalGt : Bool := match p.total with
      | some t => 0 < t
      | none => false
    let itemIDs := w.catalog.map (fun it => it.id)
    let cartItems := (p.items).getD []
    let filtered := cartItems.filter (fun kv => itemIDs.contains kv.1)
    if email.isSome || completedOnT || p.paymentInfo.isSome || totalGt || filtered ≠ [] then
      match w.orders.lookup idt with
      | none => (.notExists, w)
      | some rec0 =>
          let rec1 := { rec0 with
            email := if email.isSome then email else rec0.email
            completedOn := if completedOnT then p.completedOn else rec0.completedOn
            paymentInfo := if p.paymentInfo.isSome then p.paymentInfo else rec0.paymentInfo
            total := if totalT then (p.total).getD rec0.total else rec0.total
            items := if filtered ≠ [] then filtered else rec0.items }
          let order := mk rec1.toParams now
          if order._id == some idt then
            if orc.orderWriteOk then
              (.ok (toJSON order), { w with orders := storePut w.orders idt (toJSON order) })
            else (.couldNotUpdate, w)
          else (.idMismatch, w)
    else (.nothingToUpdate, w)
  else (.missingField, w)

/-- `options.stripeToken || "tok_visa"` (the empty string is falsy). -/
def stripeSource (stripeToken : Option String) : String :=
  match stripeToken with
  | some s => if s = "" then "tok_visa" else s
  | none => "tok_visa"

/-- The callback outcomes of `Order.prototype.complete`. -/
inductive CompleteRes where
  | alreadyCompleted (completedOn : Int)
      -- (200, { Info: 'Order already completed', completedOn }) — guard hit
  | noItems
      -- (400, 'This order contains no items.')
  | payFailed (p : Payment)
      -- (400, { Error: 'Payment failed.', paymentDetails }) — gateway said not paid
  | payError
      -- (400, err) — the ajax call to the gateway errored
  | doneReceiptInfo (put : PutRes)
      -- (orderStatusCode, { orderData, info: 'Receipt mailed to …' }) —
      -- reached when the invoice dispatch called back with a *truthy* first
      -- argument, i.e. when the mail send FAILED (error-first convention)
  | mailResponse
      -- (null, invoice) — reached when the mail send SUCCEEDED: the raw
      -- Mailgun response body is forwarded with a null status code
deriving DecidableEq, Repr

/-- The result of `Order.prototype.complete` together with its effects. -/
structure CompleteOut where
  res : CompleteRes
  order : OrderState
  w : World
  charges : List ChargeReq
  mailAttempts : Nat
deriving Repr

/-- The idempotence guard of `complete`:
`this.completedOn && this.createdOn <= this.completedOn` (a stored 0 is
falsy). -/
def completeGuard (o : OrderState) : Option Int :=
  match o._completedOn with
  | some t => if t ≠ 0 && o._createdOn ≤ t then some t else none
  | none => none

/-- `Order.prototype.complete(options, callback)`.

1. If the order is already paid, call back 200 immediately — no catalog
   read, no charge, no total update, no mail.
2. Otherwise load the item hashmap (successful-load case; a failed load
   yields an error object none of the valid 10-character item ids occur in,
   i.e. the same sums as an empty catalog), total the order items against
   it, and refuse (`400`) unless the total is strictly positive.
3. Set `this.total`, issue exactly one charge via `makePayment`
   (`amount = this.total * 100`, USD, `options.stripeToken || "tok_visa"`).
4. On a paid/succeeded charge, set `paymentInfo` and `completedOn`
   (via the validating setter), persist through `Order.put`, and dispatch
   the invoice; the invoice callback's first argument is *truthy exactly
   when the mail send failed*, and only then does `complete` return the
   `{orderData, info}` receipt with the `Order.put` status — a successful
   send forwards the raw mail response with a null status. -/
def complete (o : OrderState) (stripeToken : Option String) (w : World)
    (orc : Oracles) (now : Int) : CompleteOut :=
  match completeGuard o with
  | some t => ⟨.alreadyCompleted t, o, w, [], 0⟩
  | none =>
      let items := w.catalog
      let orderItemsMap := o._items.getD []
      let total := orderTotal orderItemsMap items
      if 0 < total then
        let o1 := setTotal o (some total)
        let req : ChargeReq :=
          { amount := o1._total * 100, currency := "USD", source := stripeSource stripeToken }
        match orc.gateway req with
        | .err => ⟨.payError, o1, w, [req], 0⟩
        | .ok payment =>
            if payment.object == "charge" && payment.paid && payment.status == "succeeded" then
              let o2 := setPaymentInfo o1 (some payment)
              let o3 := setCompletedOn o2 (some now)
              let pj := toJSON o3
              let pw := put { id := pj.id.getD "", email := pj.email,
                              completedOn := pj.completedOn, paymentInfo := pj.paymentInfo,
                              total := some pj.total, items := some pj.items } w orc now
              if orc.mailOk then ⟨.mailResponse, o3, pw.2, [req], 1⟩
              else ⟨.doneReceiptInfo pw.1, o3, pw.2, [req], 1⟩
            else ⟨.payFailed payment, o1, w, [req], 0⟩
      else ⟨.noItems, o, w, [], 0⟩

/-- Whether a `complete` callback carried status code 200 (the test
`statusCode === 200` at the checkout call site): the guard's immediate
success, or the receipt path when the inner `Order.put` reported 200.
The mail-success path forwards a *null* status and therefore fails this
test. -/
def CompleteRes.statusIs200 : CompleteRes → Bool
  | .alreadyCompleted _ => true
  | .doneReceiptInfo pr => pr.status == 200
  | _ => false

end Order

/-! ### User -/

/-- The constructor parameter object of `new User(params)`. -/
structure UserParams where
  email : Option String := none
  password : Option String := none
  firstName : Option String := none
  lastName : Option String := none
  streetAddress : Option String := none
  cart : Option ItemMap := none
  orders : Option (List String) := none
deriving DecidableEq, Repr

/-- The internal state of a `User` instance.  `_cart` and `_orders` are
always assigned by the constructor (`instanceof` fallbacks to `{}`/`[]`). -/
structure UserState where
  _email : Option String := none
  _password : Option String := none
  _firstName : String := ""
  _lastName : String := ""
  _streetAddress : String := ""
  _cart : ItemMap := []
  _orders : List String := []
deriving DecidableEq, Repr

/-- Rebuilding constructor params from a stored user JSON
(`new User(userData)`). -/
def UserRec.toParams (r : UserRec) : UserParams :=
  { email := r.email
    password := r.password
    firstName := some r.firstName
    lastName := some r.lastName
    streetAddress := some r.streetAddress
    cart := some r.cart
    orders := some r.orders }

namespace User

/-- `User.isValidEmail` = `helpers.isValidEmail`. -/
def isValidEmail (value : String) : Bool := helpers.isValidEmail value

/-- `new User(params)`: `email`/`password` through their validating setters,
the name/address fields coerced to trimmed strings, `cart`/`orders` with
`instanceof` fallbacks (`null` is not an `instanceof Object`). -/
def mk (p : UserParams) : UserState :=
  { _email := match p.email with
      | some s => if Token.isValidUserId s then some (jsTrim s) else none
      | none => none
    _password := match p.password with
      | some s => if helpers.isValidPassword s then some (jsTrim s) else none
      | none => none
    _firstName := (p.firstName.map jsTrim).getD ""
    _lastName := (p.lastName.map jsTrim).getD ""
    _streetAddress := (p.streetAddress.map jsTrim).getD ""
    _cart := p.cart.getD []
    _orders := p.orders.getD [] }

/-- `User.prototype.toJSON` (`cart`/`orders` are shallow-copied). -/
def toJSON (u : UserState) : UserRec :=
  { email := u._email
    password := u._password
    firstName := u._firstName
    lastName := u._lastName
    streetAddress := u._streetAddress
    cart := u._cart
    orders := u._orders }

/-- The callback outcomes of `User.get`. -/
inductive GetRes where
  | ok (u : UserRec)   -- 200, the user JSON with the password removed
  | notFound           -- 404
  | invalidToken       -- 403 'Missing required token in header, or token is invalid.'
  | missingField       -- 400
deriving DecidableEq, Repr

/-- `User.get(data, callback)`: validate the email and the header token id,
check the token (`token.isValid`), read the user record, strip the hashed
password from the response, and extend the token's expiration as a side
effect of activity. -/
def get (email? tokenId? : Option String) (w : World) (orc : Oracles) (now : Int) :
    GetRes × World :=
  match email? with
  | none => (.missingField, w)
  | some e =>
      if isValidEmail e then
        let email := jsTrim e
        match tokenId? with
        | none => (.invalidToken, w)
        | some tid =>
            if helpers.isValidTokenId tid then
              let token := Token.mk (some email) (some (jsTrim tid)) none
              let v := Token.isValid token w now
              if v.1 then
                let res : GetRes := match w.users.lookup email with
                  | some rec0 => .ok { toJSON (mk rec0.toParams) with password := none }
                  | none => .notFound
                (res, Token.extend v.2.1 v.2.2 orc now)
              else (.invalidToken, v.2.2)
            else (.invalidToken, w)
      else (.missingField, w)

/-- The payload of a `User.put` request. -/
structure PutPayload where
  email : Option String := none
  password : Option String := none
  firstName : Option String := none
  lastName : Option String := none
  streetAddress : Option String := none
  cart : Option ItemMap := none
  orders : Option (List String) := none
deriving Repr

/-- The callback outcomes of `User.put`. -/
inductive PutRes where
  | ok (u : UserRec)   -- 200, the updated user JSON
  | couldNotUpdate     -- 500 'Could not update the specified user.'
  | emailMismatch      -- 400 'Could not update the specified user'
  | noSuchUser         -- 400 'Specified user does not exist.'
  | invalidToken       -- 403
  | nothingToUpdate    -- 400 'Missing fields to update.'
  | missingField       -- 400 'Missing required field.'
deriving DecidableEq, Repr

/-- `User.put(data, callback)`: validate the email, collect the optional
fields (names/address must trim to a nonempty string; a cart object — even
`{}` — and an orders array — even `[]` — are truthy), require something to
update, check the token, read the record, overwrite the sent fields
(passwords re-hashed), rebuild through the validating constructor, persist
when the rebuilt email matches, and extend the token. -/
def put (p : PutPayload) (tokenId? : Option String) (w : World) (orc : Oracles)
    (now : Int) : PutRes × World :=
  match p.email with
  | none => (.missingField, w)
  | some e =>
      if isValidEmail e then
        let email := jsTrim e
        let password := match p.password with
          | some s => if helpers.isValidPassword s then some (jsTrim s) else none
          | none => none
        let firstName := match p.firstName with
          | some s => if s.trim.length ≠ 0 then some (jsTrim s) else none
          | none => none
        let lastName := match p.lastName with
          | some s => if s.trim.length ≠ 0 then some (jsTrim s) else none
          | none => none
        let streetAddress := match p.streetAddress with
          | some s => if s.trim.length ≠ 0 then some (jsTrim s) else none
          | none => none
        if firstName.isSome || lastName.isSome || password.isSome ||
            streetAddress.isSome || p.cart.isSome || p.orders.isSome then
          match tokenId? with
          | none => (.invalidToken, w)
          | some tid =>
              if helpers.isValidTokenId tid then
                let token := Token.mk (some email) (some (jsTrim tid)) none
                let v := Token.isValid token w now
                if v.1 then
                  match v.2.2.users.lookup email with
                  | none => (.noSuchUser, v.2.2)
                  | some rec0 =>
                      let rec1 := { rec0 with
                        firstName := firstName.getD rec0.firstName
                        lastName := lastName.getD rec0.lastName
                        password := match password with
                          | some pw => helpers.hash pw
                          | none => rec0.password
                        streetAddress := streetAddress.getD rec0.streetAddress
                        cart := p.cart.getD rec0.cart
                        orders := p.orders.getD rec0.orders }
                      let user := mk rec1.toParams
                      let res := if user._email == some email then
                          if orc.userWriteOk then
                            (PutRes.ok (toJSON user),
                              { v.2.2 with users := storePut v.2.2.users email (toJSON user) })
                          else (PutRes.couldNotUpdate, v.2.2)
                        else (PutRes.emailMismatch, v.2.2)
                      (res.1, Token.extend v.2.1 res.2 orc now)
                else (.invalidToken, v.2.2)
              else (.invalidToken, w)
        else (.nothingToUpdate, w)
      else (.missingField, w)

/-- The callback outcomes of `User.checkout`, one per call site. -/
inductive CheckoutRes where
  | missingField                            -- 400, invalid owner email
  | noToken                                 -- 403, missing/malformed header token
  | tokenInvalid                            -- 403, token.isValid said no
  | getFailed (r : GetRes)                  -- forwarded User.get failure
  | cartEmpty                               -- 403 'Cannot create order. Cart is empty.'
  | postFailed (r : Order.PostRes)          -- forwarded Order.post failure
  | completeFailed (r : Order.CompleteRes)  -- forwarded complete callback, status ≠ 200
  | userPutFailed (r : PutRes)              -- payment done, final user persist not 200
  | ok (payment : Order.CompleteRes)        -- 200 with complete's 200 body
deriving DecidableEq, Repr

/-- The result of `User.checkout` together with its effects. -/
structure CheckoutOut where
  res : CheckoutRes
  w : World
  charges : List ChargeReq
  mailAttempts : Nat
deriving Repr

/-- `User.checkout(data, callback)`:
validate email and header token; `token.isValid` (expired tokens deleted as
a side effect); `User.get` (which re-checks the token and extends it);
checkout's own fire-and-forget `token.extend()`; reject an empty cart;
`Order.post` from the cart; `order.complete`; on a 200 completion append the
new order id to the user's orders, clear the cart and persist via
`User.put`.  `t0` is the clock during authentication/creation, `t1` the
clock when the completion timestamp is taken; `newOrderId` is the value
`Order.createUniqueId()` produced. -/
def checkout (email? stripeToken? tokenId? : Option String) (w : World)
    (orc : Oracles) (t0 t1 : Int) (newOrderId : String) : CheckoutOut :=
  match email? with
  | none => ⟨.missingField, w, [], 0⟩
  | some e =>
      if isValidEmail e then
        let email := jsTrim e
        match tokenId? with
        | none => ⟨.noToken, w, [], 0⟩
        | some tid =>
            if helpers.isValidTokenId tid then
              let token := Token.mk (some email) (some (jsTrim tid)) none
              let v := Token.isValid token w t0
              if v.1 then
                let g := get (some email) (some tid) v.2.2 orc t0
                let w3 := Token.extend v.2.1 g.2 orc t0
                match g.1 with
                | .ok userBody =>
                    let user := mk userBody.toParams
                    if user._cart ≠ [] then
                      let pr := Order.post user._email (some user._cart) w3 orc t0 newOrderId
                      match pr.1 with
                      | .ok orderData =>
                          let order := Order.mk orderData.toParams t0
                          let c := Order.complete order stripeToken? pr.2 orc t1
                          if c.res.statusIs200 then
                            let orders' := user._orders ++ [order._id.getD "null"]
                            let up := put { email := user._email, cart := some ([] : ItemMap),
                                            orders := some orders' } tokenId? c.w orc t1
                            match up.1 with
                            | .ok _ => ⟨.ok c.res, up.2, c.charges, c.mailAttempts⟩
                            | r => ⟨.userPutFailed r, up.2, c.charges, c.mailAttempts⟩
                          else ⟨.completeFailed c.res, c.w, c.charges, c.mailAttempts⟩
                      | r => ⟨.postFailed r, pr.2, [], 0⟩
                    else ⟨.cartEmpty, w3, [], 0⟩
                | r => ⟨.getFailed r, g.2, [], 0⟩
              else ⟨.tokenInvalid, v.2.2, [], 0⟩
            else ⟨.noToken, w, [], 0⟩
      else ⟨.missingField, w, [], 0⟩

end User

/-! ### Concrete fixtures (a small well-formed store used to instantiate
the theorems below on closed inputs) -/

def catW : List ItemRec :=
  [ { id := "item000001", name := "margherita", unitPrice := (15 : Rat) / 2 },
    { id := "itemAAAAAA", name := "quattro", unitPrice := 10 },
    { id := "itemBBBBBB", name := "calzone", unitPrice := 5 } ]

def payOkW : Payment := { object := "charge", paid := true, status := "succeeded" }

def orcW : Oracles := { gateway := fun _ => .ok payOkW }

def orcMailFailW : Oracles := { gateway := fun _ => .ok payOkW, mailOk := false }

/-- Charge succeeds, invoice mail fails (so `complete` reports 200), and
the final user persist fails. -/
def orcPartialW : Oracles :=
  { gateway := fun _ => .ok payOkW, mailOk := false, userWriteOk := false }

def tokRecW : TokenRec :=
  { email := some "a@b.com", id := some "t0000000000000000001", expiration := some 10000000 }

def usrW : UserRec :=
  { email := some "a@b.com", password := some "hmac-sha256:secret1", firstName := "Ada",
    lastName := "L", streetAddress := "", cart := [("item000001", 2)], orders := [] }

def wW : World :=
  { users := [("a@b.com", usrW)], tokens := [("t0000000000000000001", tokRecW)],
    orders := [], catalog := catW }

/-- A freshly created (un-completed) stored order. -/
def ordFreshW : OrderRec :=
  { id := some "order000000000000001", email := some "a@b.com", createdOn := 1000,
    completedOn := none, paymentInfo := none, total := 0, items := [("item000001", 2)] }

def wOrdW : World := { orders := [("order000000000000001", ordFreshW)], catalog := catW }

/-- The `Order` instance checkout builds from `ordFreshW` (`new
Order(orderData)` at time 1000). -/
def oFreshW : OrderState := Order.mk ordFreshW.toParams 1000

/-- A first `complete` call on the fresh order, with the invoice mail
failing (the only configuration under which `complete` reports 200). -/
def c1FirstW : Order.CompleteOut := Order.complete oFreshW none wOrdW orcMailFailW 2000

/-- A completed stored order. -/
def ordDoneW : OrderRec :=
  { id := some "order000000000000001", email := some "a@b.com", createdOn := 1000,
    completedOn := some 2000, paymentInfo := some payOkW, total := 15,
    items := [("item000001", 2)] }

def wDoneW : World := { orders := [("order000000000000001", ordDoneW)], catalog := catW }

/-! ## Verification -/

/-- The total as §4.3 step 3 of the spec words it: the sum over the order's
`(itemId, qty)` entries of `catalogPrice[itemId] * qty`, item ids absent
from the current catalog hashmap contributing 0. -/
def specTotal (items : ItemMap) (catalog : List ItemRec) : Rat :=
  (items.map (fun kv =>
    match Item.findById catalog kv.1 with
    | some it => it.unitPrice * kv.2
    | none => 0)).sum

theorem orderTotal_go (catalog : List ItemRec) (l : ItemMap) : ∀ a : Rat,
    l.foldl (fun sum kv =>
      match Item.findById catalog kv.1 with
      | some it => sum + it.unitPrice * kv.2
      | none => sum) a = a + specTotal l catalog := by
  induction l with
  | nil => intro a; simp [specTotal]
  | cons kv t ih =>
      intro a
      simp only [List.foldl_cons, specTotal, List.map_cons, List.sum_cons]
      cases h : Item.findById catalog kv.1 <;>
        simp only [h, ih, specTotal] <;> ring

/-- The reduce-with-accumulator in the code computes exactly the
specification's sum. -/
theorem orderTotal_eq_specTotal (items : ItemMap) (catalog : List ItemRec) :
    Order.orderTotal items catalog = specTotal items catalog := by
  simpa [Order.orderTotal] using orderTotal_go catalog items 0

theorem lookup_storePut_self (l : List (String × α)) (k : String) (v : α) :
    (storePut l k v).lookup k = some v := by
  simp [storePut]

theorem lookup_storeErase_self (l : List (String × α)) (k : String) :
    (storeErase l k).lookup k = none := by
  induction l with
  | nil => rfl
  | cons kv t ih =>
      by_cases h : kv.1 = k <;> simp [storeErase, h] at ih ⊢ <;>
        first
          | exact ih
          | exact ⟨fun hk => h hk.symm, ih⟩

/-! ### Claim C10 — atomicity of the `items` setter -/

/-- The `items` setter preserves the all-keys-valid invariant. -/
theorem setItems_valid_keys (o : OrderState) (v : JsObj ItemMap)
    (hinv : ∀ m, o._items = some m → ∀ kv ∈ m, Item.isValidId kv.1 = true) :
    ∀ m, (Order.setItems o v)._items = some m →
      ∀ kv ∈ m, Item.isValidId kv.1 = true := by
  intro m hm kv hkv
  rcases v with _ | _ | m'
  · exact hinv m hm kv hkv
  · exact hinv m hm kv hkv
  · simp only [Order.setItems] at hm
    by_cases hall : m'.all (fun kv => Item.isValidId kv.1) = true
    · rw [if_pos hall] at hm
      cases hm
      exact List.all_eq_true.mp hall kv hkv
    · rw [if_neg hall] at hm
      exact hinv m hm kv hkv

/-- Claim C10: assigning an items mapping in which any key fails the
10-character item-id format check leaves the order's items mapping (indeed
the whole order) unchanged — the assignment is discarded atomically — and
consequently every constructed order's items mapping, when present, holds
only valid-format keys: the constructor establishes the invariant and the
setter preserves it. -/
theorem C10_items_setter_atomic :
    (∀ (o : OrderState) (m : ItemMap),
        (∃ kv ∈ m, Item.isValidId kv.1 = false) →
        Order.setItems o (.obj m) = o)
    ∧ (∀ (p : OrderParams) (now : Int) (m : ItemMap),
        (Order.mk p now)._items = some m → ∀ kv ∈ m, Item.isValidId kv.1 = true)
    ∧ (∀ (o : OrderState) (v : JsObj ItemMap),
        (∀ m, o._items = some m → ∀ kv ∈ m, Item.isValidId kv.1 = true) →
        (∀ m, (Order.setItems o v)._items = some m →
          ∀ kv ∈ m, Item.isValidId kv.1 = true)) := by
  refine ⟨?_, ?_, fun o v hinv => setItems_valid_keys o v hinv⟩
  · intro o m hbad
    have hall : m.all (fun kv => Item.isValidId kv.1) = false := by
      rw [List.all_eq_false]
      obtain ⟨kv, hm, hv⟩ := hbad
      exact ⟨kv, hm, by simp [hv]⟩
    simp [Order.setItems, hall]
  · intro p now
    simp only [Order.mk]
    exact setItems_valid_keys _ _ (fun m hm => Option.noConfusion hm)

/-- Witness for C10 at concrete inputs: the key `"bad"` fails the format
check, so the whole assignment onto an order already holding a valid
mapping is discarded. -/
theorem C10_items_setter_atomic_witness :
    (∃ kv ∈ [(("bad" : String), (1 : Rat))], Item.isValidId kv.1 = false)
    ∧ Order.setItems { _items := some [("item000001", 2)] }
        (.obj [(("bad" : String), (1 : Rat))]) =
        { _items := some [("item000001", 2)] } := by
  refine ⟨⟨("bad", 1), by simp, by decide⟩, ?_⟩
  exact C10_items_setter_atomic.1 _ _ ⟨("bad", 1), by simp, by decide⟩

/-! ### Claim C9 — the order-identifier allocator -/

/-- What one successful pass of the generation loop guarantees: the
accepted candidate is fresh, is 21 characters long, and is pushed onto the
registry. -/
theorem genLoop_spec : ∀ (cands : List String) (st : helpers.RandomState)
    (sId : String) (st' : helpers.RandomState),
    helpers.genLoop st cands = some (sId, st') →
    st.ids.contains sId = false ∧ sId.length = 21 ∧ st' = ⟨sId :: st.ids⟩ := by
  intro cands
  induction cands with
  | nil => intro st sId st' h; cases h
  | cons c rest ih =>
      intro st sId st' h
      simp only [helpers.genLoop] at h
      split at h
      · exact ih st sId st' h
      · rename_i hcond
        rcases h with ⟨rfl, rfl⟩
        simp only [Bool.or_eq_true, not_or, Bool.not_eq_true, decide_eq_true_eq] at hcond
        exact ⟨hcond.1, by simpa using hcond.2, rfl⟩

/-- Claim C9, counterexample: the registry collision-checks the *full
21-character candidate* but the function returns only its last 20
characters, so two allocations whose candidates differ only in the dropped
leading character both succeed yet return the *same* identifier. -/
theorem C9_counterexample :
    helpers.createRandomString 20 ⟨[]⟩ ["a00000000000000000000"] =
      some ("00000000000000000000", ⟨["a00000000000000000000"]⟩)
    ∧ helpers.createRandomString 20 ⟨["a00000000000000000000"]⟩
        ["b00000000000000000000"] =
      some ("00000000000000000000", ⟨["b00000000000000000000", "a00000000000000000000"]⟩) := by
  exact ⟨by decide, by decide⟩

/-- Claim C9, amended: across two successive allocations the *registered
full 21-character candidates* are distinct (the collision check plus
regeneration guarantees this for the lifetime of the process), and each
returned fixed-length identifier is its candidate's suffix after dropping
the leading character — the returned identifiers themselves are not
guaranteed distinct. -/
theorem C9_allocator_amended (st st1 st2 : helpers.RandomState)
    (cands1 cands2 : List String) (id1 id2 : String)
    (h1 : helpers.createRandomString 20 st cands1 = some (id1, st1))
    (h2 : helpers.createRandomString 20 st1 cands2 = some (id2, st2)) :
    ∃ c1 c2 : String,
      st1.ids = c1 :: st.ids ∧ st2.ids = c2 :: st1.ids ∧
      c1.length = 21 ∧ c2.length = 21 ∧
      id1 = jsDrop c1 1 ∧ id2 = jsDrop c2 1 ∧ c1 ≠ c2 := by
  simp only [helpers.createRandomString] at h1 h2
  rcases hg1 : helpers.genLoop st cands1 with _ | ⟨c1, st1'⟩ <;> rw [hg1] at h1
  · cases h1
  rcases hg2 : helpers.genLoop st1 cands2 with _ | ⟨c2, st2'⟩ <;> rw [hg2] at h2
  · cases h2
  obtain ⟨hfresh1, hlen1, hreg1⟩ := genLoop_spec _ _ _ _ hg1
  obtain ⟨hfresh2, hlen2, hreg2⟩ := genLoop_spec _ _ _ _ hg2
  rcases h1 with ⟨rfl, rfl⟩
  rcases h2 with ⟨rfl, rfl⟩
  refine ⟨c1, c2, by rw [hreg1], by rw [hreg2], hlen1, hlen2,
    by norm_num, by norm_num, ?_⟩
  intro heq
  subst heq
  rw [hreg1] at hfresh2
  simp [List.contains_cons] at hfresh2

/-- Witness for the amended C9 at the counterexample's concrete inputs. -/
theorem C9_allocator_amended_witness :
    ∃ c1 c2 : String,
      (⟨["a00000000000000000000"]⟩ : helpers.RandomState).ids =
        c1 :: (⟨[]⟩ : helpers.RandomState).ids ∧
      (⟨["b00000000000000000000", "a00000000000000000000"]⟩ :
        helpers.RandomState).ids = c2 :: (⟨["a00000000000000000000"]⟩ :
        helpers.RandomState).ids ∧
      c1.length = 21 ∧ c2.length = 21 ∧
      "00000000000000000000" = jsDrop c1 1 ∧ "00000000000000000000" = jsDrop c2 1 ∧
      c1 ≠ c2 :=
  C9_allocator_amended ⟨[]⟩ ⟨["a00000000000000000000"]⟩
    ⟨["b00000000000000000000", "a00000000000000000000"]⟩
    ["a00000000000000000000"] ["b00000000000000000000"]
    "00000000000000000000" "00000000000000000000" (by decide) (by decide)

/-! ### Claims C2 and C3 — the total computation and the zero-total guard -/

/-- Claim C2: for every order on which `complete` proceeds past the
idempotence guard (and reaches the gateway, i.e. the total is positive),
the computed total equals the specification's sum over the order's
`(itemId, qty)` entries of `catalogPrice[itemId] * qty` — item ids absent
from the current catalog hashmap are skipped, contributing 0 — and the
single charge request handed to the payment gateway carries exactly that
total times 100 (minor units). -/
theorem C2_complete_total_and_charge (o : OrderState) (st : Option String)
    (w : World) (orc : Oracles) (now : Int)
    (hguard : Order.completeGuard o = none)
    (hpos : 0 < Order.orderTotal (o._items.getD []) w.catalog) :
    Order.orderTotal (o._items.getD []) w.catalog =
      specTotal (o._items.getD []) w.catalog
    ∧ (Order.complete o st w orc now).charges =
        [{ amount := Order.orderTotal (o._items.getD []) w.catalog * 100,
           currency := "USD", source := Order.stripeSource st }] := by
  refine ⟨orderTotal_eq_specTotal _ _, ?_⟩
  have htot : (Order.setTotal o
      (some (Order.orderTotal (o._items.getD []) w.catalog)))._total =
      Order.orderTotal (o._items.getD []) w.catalog := by
    simp [Order.setTotal, le_of_lt hpos]
  simp only [Order.complete, hguard]
  rw [if_pos hpos]
  simp only [htot]
  split
  · rfl
  · split
    · split <;> rfl
    · rfl

/-- The order used to instantiate C2's witness: items `{A: 2, B: 1}` with
catalog prices `A = 10.00`, `B = 5.00`. -/
def oABW : OrderState :=
  { _id := some "order000000000000001", _email := some "a@b.com",
    _createdOn := 100, _items := some [("itemAAAAAA", 2), ("itemBBBBBB", 1)] }

/-- Witness for C2: the claim's own example — total 25.00, charge 2500
minor units with the default `tok_visa` source. -/
theorem C2_complete_total_and_charge_witness :
    Order.completeGuard oABW = none
    ∧ 0 < Order.orderTotal (oABW._items.getD []) wOrdW.catalog
    ∧ Order.orderTotal (oABW._items.getD []) wOrdW.catalog = 25
    ∧ Order.orderTotal (oABW._items.getD []) wOrdW.catalog * 100 = 2500
    ∧ (Order.orderTotal (oABW._items.getD []) wOrdW.catalog =
        specTotal (oABW._items.getD []) wOrdW.catalog
      ∧ (Order.complete oABW none wOrdW orcW 7).charges =
          [{ amount := Order.orderTotal (oABW._items.getD []) wOrdW.catalog * 100,
             currency := "USD", source := Order.stripeSource none }]) :=
  ⟨by decide, by decide, by decide, by decide,
    C2_complete_total_and_charge oABW none wOrdW orcW 7 (by decide) (by decide)⟩

/-- Claim C3: for every order whose items, after catalog filtering at
completion time, sum to a non-positive total, `complete` fails with the
empty-order error (400, 'This order contains no items.') and the payment
gateway is never invoked — no charge request is issued, and neither the
order nor the store is touched. -/
theorem C3_zero_total_rejected (o : OrderState) (st : Option String) (w : World)
    (orc : Oracles) (now : Int)
    (hguard : Order.completeGuard o = none)
    (hle : Order.orderTotal (o._items.getD []) w.catalog ≤ 0) :
    Order.complete o st w orc now = ⟨.noItems, o, w, [], 0⟩ := by
  simp only [Order.complete, hguard]
  rw [if_neg (not_lt.2 hle)]

/-- The order used to instantiate C3's witness: its only item id is no
longer in the catalog, so the filtered total is 0. -/
def oZW : OrderState :=
  { _id := some "order000000000000002", _email := some "a@b.com",
    _createdOn := 100, _items := some [("zzzzzzzzzz", 2)] }

/-- Witness for C3 at concrete inputs. -/
theorem C3_zero_total_rejected_witness :
    Order.completeGuard oZW = none
    ∧ Order.orderTotal (oZW._items.getD []) wOrdW.catalog ≤ 0
    ∧ Order.complete oZW none wOrdW orcW 7 = ⟨.noItems, oZW, wOrdW, [], 0⟩ :=
  ⟨by decide, by decide,
    C3_zero_total_rejected oZW none wOrdW orcW 7 (by decide) (by decide)⟩

/-! ### Claim C1 — idempotence of `complete` -/

/-- The idempotence guard: on an order whose `completedOn` is set (truthy)
with `createdOn <= completedOn`, `complete` returns 200 immediately with
the already-completed info, touching nothing — no catalog read, no total
update, no charge, no mail. -/
theorem complete_already (o : OrderState) (st : Option String) (w : World)
    (orc : Oracles) (now t : Int)
    (h1 : o._completedOn = some t) (h2 : t ≠ 0) (h3 : o._createdOn ≤ t) :
    Order.complete o st w orc now = ⟨.alreadyCompleted t, o, w, [], 0⟩ := by
  simp [Order.complete, Order.completeGuard, h1, h2, h3]

/-- On the success path (guard not hit, positive total, gateway reports a
paid/succeeded charge) the first call issues exactly the one charge and
leaves the in-memory order with `total`, `paymentInfo` and `completedOn`
set. -/
theorem complete_success_shape (o : OrderState) (st : Option String)
    (w : World) (orc : Oracles) (now : Int) (p : Payment)
    (hguard : Order.completeGuard o = none)
    (hpos : 0 < Order.orderTotal (o._items.getD []) w.catalog)
    (hgw : orc.gateway
      { amount := Order.orderTotal (o._items.getD []) w.catalog * 100,
        currency := "USD", source := Order.stripeSource st } = .ok p)
    (hobj : p.object = "charge") (hpaid : p.paid = true)
    (hst : p.status = "succeeded") :
    (Order.complete o st w orc now).order =
      Order.setCompletedOn (Order.setPaymentInfo
        (Order.setTotal o (some (Order.orderTotal (o._items.getD []) w.catalog)))
        (some p)) (some now)
    ∧ (Order.complete o st w orc now).charges =
        [{ amount := (Order.setTotal o
              (some (Order.orderTotal (o._items.getD []) w.catalog)))._total * 100,
           currency := "USD", source := Order.stripeSource st }] := by
  have htot : (Order.setTotal o
      (some (Order.orderTotal (o._items.getD []) w.catalog)))._total =
      Order.orderTotal (o._items.getD []) w.catalog := by
    simp [Order.setTotal, le_of_lt hpos]
  simp only [Order.complete, hguard]
  rw [if_pos hpos]
  simp only [htot] at hgw ⊢
  rw [hgw]
  simp only [hobj, hpaid, hst]
  norm_num
  constructor <;> · split <;> rfl

/-- Claim C1, counterexample: the second `complete` call on a completed
order does *not* return the first call's receipt — the first (successful)
call returns the `{orderData, info}` receipt body, the second returns the
`{Info: 'Order already completed', completedOn}` body. -/
theorem C1_counterexample :
    c1FirstW.res.statusIs200 = true
    ∧ (Order.complete c1FirstW.order none c1FirstW.w orcMailFailW 3000).res ≠
        c1FirstW.res := by
  exact ⟨by decide, by decide⟩

/-- Claim C1, amended: (a) for every order whose `completedOn` is already
set (truthy) with `createdOn ≤ completedOn`, `complete` returns success
(200) immediately with the existing completion info — without invoking the
payment gateway, recomputing the total, or sending an email; (b) calling
`complete` twice on the same order with valid inputs (first call charging
successfully) charges the payment gateway at most once: the second call
issues no charge, no mail, changes nothing, and returns 200 with the
already-completed info carrying the stored completion timestamp — which is
*not* the first call's receipt body. -/
theorem C1_complete_idempotent_amended :
    (∀ (o : OrderState) (st : Option String) (w : World) (orc : Oracles)
        (now t : Int),
        o._completedOn = some t → t ≠ 0 → o._createdOn ≤ t →
        Order.complete o st w orc now = ⟨.alreadyCompleted t, o, w, [], 0⟩)
    ∧ (∀ (o : OrderState) (st st2 : Option String) (w : World) (orc : Oracles)
        (now now2 : Int) (p : Payment),
        Order.completeGuard o = none →
        0 < Order.orderTotal (o._items.getD []) w.catalog →
        orc.gateway
          { amount := Order.orderTotal (o._items.getD []) w.catalog * 100,
            currency := "USD", source := Order.stripeSource st } = .ok p →
        p.object = "charge" → p.paid = true → p.status = "succeeded" →
        o._createdOn ≤ now → now ≠ 0 →
        (Order.complete o st w orc now).charges.length = 1
        ∧ Order.complete (Order.complete o st w orc now).order st2
            (Order.complete o st w orc now).w orc now2 =
          ⟨.alreadyCompleted now, (Order.complete o st w orc now).order,
            (Order.complete o st w orc now).w, [], 0⟩) := by
  refine ⟨complete_already, ?_⟩
  intro o st st2 w orc now now2 p hguard hpos hgw hobj hpaid hst hnow hnz
  obtain ⟨horder, hcharges⟩ :=
    complete_success_shape o st w orc now p hguard hpos hgw hobj hpaid hst
  refine ⟨by rw [hcharges]; rfl, ?_⟩
  have hc : (Order.complete o st w orc now).order._completedOn = some now := by
    rw [horder]
    simp [Order.setCompletedOn, Order.setPaymentInfo, Order.setTotal, hnow]
  have hcr : (Order.complete o st w orc now).order._createdOn = o._createdOn := by
    rw [horder]
    simp [Order.setCompletedOn, Order.setPaymentInfo, Order.setTotal]
  exact complete_already _ st2 _ orc now2 now hc hnz (by rw [hcr]; exact hnow)

/-- Witness for the amended C1 at concrete inputs: the fresh stored order,
the always-succeeding gateway, mail failing (so the first call reports
200). -/
theorem C1_complete_idempotent_amended_witness :
    Order.completeGuard oFreshW = none
    ∧ 0 < Order.orderTotal (oFreshW._items.getD []) wOrdW.catalog
    ∧ ((Order.complete oFreshW none wOrdW orcMailFailW 2000).charges.length = 1
      ∧ Order.complete (Order.complete oFreshW none wOrdW orcMailFailW 2000).order none
          (Order.complete oFreshW none wOrdW orcMailFailW 2000).w orcMailFailW 3000 =
        ⟨.alreadyCompleted 2000, (Order.complete oFreshW none wOrdW orcMailFailW 2000).order,
          (Order.complete oFreshW none wOrdW orcMailFailW 2000).w, [], 0⟩) :=
  ⟨by decide, by decide,
    C1_complete_idempotent_amended.2 oFreshW none none wOrdW orcMailFailW 2000 3000 payOkW
      (by decide) (by decide) rfl rfl rfl rfl (by decide) (by decide)⟩

/-! ### Claim C4 — end-to-end checkout -/

/-- Claim C4 (code bug): on the happy path — valid non-expired token,
existing user with cart `{item000001: 2}`, catalog price 7.50, the gateway
charging successfully (1500 minor units) — when the invoice mail also
*succeeds*, checkout never appends the order id or clears the cart:
`complete` forwards the mail transport's error-first callback (first
argument `null` on success) as its own status, checkout's
`statusCode === 200` test fails, the user-update step is skipped, and the
caller receives the raw mail response under a null status while the charge
and the completed order stand.  With the mail *failing*, the very same
checkout updates the user — the branch is inverted. -/
theorem C4_checkout_end_to_end :
    (User.checkout (some "a@b.com") none (some "t0000000000000000001") wW orcW
        1000 2000 "order000000000000001").res = .completeFailed .mailResponse
    ∧ (User.checkout (some "a@b.com") none (some "t0000000000000000001") wW orcW
        1000 2000 "order000000000000001").w.users.lookup "a@b.com" = some usrW
    ∧ (User.checkout (some "a@b.com") none (some "t0000000000000000001") wW orcW
        1000 2000 "order000000000000001").charges =
        [{ amount := 1500, currency := "USD", source := "tok_visa" }]
    ∧ (User.checkout (some "a@b.com") none (some "t0000000000000000001") wW
        orcMailFailW 1000 2000 "order000000000000001").w.users.lookup "a@b.com" =
        some { usrW with cart := [], orders := ["order000000000000001"] }
    ∧ (User.checkout (some "a@b.com") none (some "t0000000000000000001") wW
        orcMailFailW 1000 2000 "order000000000000001").w.orders.lookup
          "order000000000000001" =
        some { id := some "order000000000000001", email := some "a@b.com",
               createdOn := 1000, completedOn := some 2000,
               paymentInfo := some payOkW, total := 15,
               items := [("item000001", 2)] } := by
  refine ⟨by decide, by decide, by decide, by decide, by decide⟩

/-! ### Claim C5 — cart filtering at order creation -/

/-- Evaluation of the success branch of `Order.post`: with a valid trimmed
owner email, a well-formed catalog, a fresh valid 20-character id and a
non-empty filtered mapping, the new order record holds exactly the
surviving keys and is persisted under the new id. -/
theorem post_ok_eval (e : String) (items : ItemMap) (w : World)
    (orc : Oracles) (now : Int) (newId : String) (filtered : ItemMap)
    (hem : Order.isValidEmail e = true) (hetr : jsTrim e = e)
    (hcat : ∀ it ∈ w.catalog, Item.isValidId it.id = true)
    (hid : Order.isValidOrderId newId = true) (hntr : jsTrim newId = newId)
    (hfresh : w.orders.lookup newId = none)
    (hcreate : orc.orderCreateOk = true)
    (hfiltered : filtered = items.filter
        (fun kv => (w.catalog.map (fun it => it.id)).contains kv.1))
    (hne : filtered ≠ []) :
    Order.post (some e) (some items) w orc now newId =
      (.ok { id := some newId, email := some e, createdOn := now,
             completedOn := none, paymentInfo := none, total := 0,
             items := filtered },
        { w with orders := (storePut w.orders newId
            { id := some newId, email := some e, createdOn := now,
              completedOn := none, paymentInfo := none, total := 0,
              items := filtered }) } ) := by
  have hall : filtered.all (fun kv => Item.isValidId kv.1) = true := by
    rw [List.all_eq_true]
    intro kv hkv
    rw [hfiltered] at hkv
    have hc := List.of_mem_filter hkv
    have hmem : kv.1 ∈ w.catalog.map (fun it => it.id) := by
      simpa [List.elem_iff] using hc
    obtain ⟨it, hit, hidq⟩ := List.mem_map.mp hmem
    rw [← hidq]
    exact hcat it hit
  have hmk : Order.mk
      (OrderParams.mk (some newId) (some (jsTrim e)) none none none none
        (.obj filtered)) now =
      { _id := some newId, _email := some e, _createdOn := now,
        _completedOn := none, _paymentInfo := none, _total := 0,
        _items := some filtered } := by
    have hem' : helpers.isValidEmail e = true := hem
    simp [Order.mk, Order.setId, Order.setEmail, Order.setCreatedOn,
      Order.setCompletedOn, Order.setPaymentInfo, Order.setTotal,
      Order.setItems, hid, hntr, hall, hetr, hem', Order.isValidEmail]
  simp only [Order.post, hem, if_true, Option.getD_some, ← hfiltered]
  rw [if_pos hne]
  simp only [hmk, Order.toJSON, Option.getD_some, hfresh, hcreate]
  rfl

/-- Claim C5: for every order-creation request with a valid owner email,
requested item keys not present in the current catalog are dropped silently
— the created and persisted order record contains exactly the surviving
keys — and when the filtered mapping is empty the creation fails with the
invalid-request error and no order record is persisted. -/
theorem C5_order_post_filtering (e : String) (items : ItemMap) (w : World)
    (orc : Oracles) (now : Int) (newId : String)
    (hem : Order.isValidEmail e = true) (hetr : jsTrim e = e)
    (hcat : ∀ it ∈ w.catalog, Item.isValidId it.id = true)
    (hid : Order.isValidOrderId newId = true) (hntr : jsTrim newId = newId)
    (hfresh : w.orders.lookup newId = none)
    (hcreate : orc.orderCreateOk = true) :
    (items.filter (fun kv => (w.catalog.map (fun it => it.id)).contains kv.1) = [] →
      Order.post (some e) (some items) w orc now newId = (.emptyCart, w))
    ∧ (∀ filtered, filtered =
        items.filter (fun kv => (w.catalog.map (fun it => it.id)).contains kv.1) →
        filtered ≠ [] →
        Order.post (some e) (some items) w orc now newId =
          (.ok { id := some newId, email := some e, createdOn := now,
                 completedOn := none, paymentInfo := none, total := 0,
                 items := filtered },
            { w with orders := (storePut w.orders newId
                { id := some newId, email := some e, createdOn := now,
                  completedOn := none, paymentInfo := none, total := 0,
                  items := filtered }) } )) := by
  constructor
  · intro hempty
    simp only [Order.post, hem, if_true]
    rw [if_neg (fun h => h hempty)]
  · intro filtered hfiltered hne
    exact post_ok_eval e items w orc now newId filtered hem hetr hcat hid hntr
      hfresh hcreate hfiltered hne

/-- Witness for C5 at concrete inputs: requested items
`{valid1-style key: 1, unknown key: 3}` where only the first is in the
catalog — the created order contains only the surviving key. -/
theorem C5_order_post_filtering_witness :
    Order.isValidEmail "a@b.com" = true ∧
    ([(("item000001" : String), (1 : Rat)), ("unknownIt", 3)].filter
        (fun kv => (wW.catalog.map (fun it => it.id)).contains kv.1) =
      [(("item000001" : String), (1 : Rat))])
    ∧ Order.post (some "a@b.com")
        (some [(("item000001" : String), (1 : Rat)), ("unknownIt", 3)]) wW orcW 50
        "order000000000000009" =
        (.ok { id := some "order000000000000009", email := some "a@b.com",
               createdOn := 50, completedOn := none, paymentInfo := none,
               total := 0, items := [("item000001", 1)] },
          { wW with orders := (storePut wW.orders "order000000000000009"
              { id := some "order000000000000009", email := some "a@b.com",
                createdOn := 50, completedOn := none, paymentInfo := none,
                total := 0, items := [("item000001", 1)] }) } ) :=
  ⟨by decide, by decide,
    by
      have h := (C5_order_post_filtering "a@b.com"
        [("item000001", 1), ("unknownIt", 3)] wW orcW 50 "order000000000000009"
        (by decide) (by decide) (by decide) (by decide) (by decide) (by decide)
        (by decide)).2 [("item000001", 1)] (by decide) (by decide)
      exact h⟩

/-! ### Claim C6 — monotonicity of `completedOn` -/

/-- Claim C6, counterexample: an `Order.put` update carrying a forged
`completedOn` earlier than `createdOn` does *not* leave the stored
`completedOn` unchanged — the update succeeds (200) and the reconstruction
through the validating constructor silently discards the invalid value, so
the persisted record's `completedOn` becomes *absent* (the order is no
longer completed). -/
theorem C6_counterexample :
    ordDoneW.completedOn = some 2000
    ∧ (Order.put { id := "order000000000000001", completedOn := some 500 }
        wDoneW orcW 3000).1 = .ok { ordDoneW with completedOn := none }
    ∧ (Order.put { id := "order000000000000001", completedOn := some 500 }
        wDoneW orcW 3000).2.orders.lookup "order000000000000001" =
        some { ordDoneW with completedOn := none } := by
  refine ⟨by decide, by decide, by decide⟩

/-- Claim C6, amended: `completedOn`, once set, is always `≥ createdOn`
(established by the constructor and preserved by the setter), and an
attempt to assign an earlier timestamp through the property setter leaves
the stored value unchanged; an `Order.put` update carrying a forged earlier
(truthy) timestamp, however, does not leave the stored `completedOn`
unchanged — it erases it to absent; in no case is a `completedOn` earlier
than `createdOn` ever stored. -/
theorem C6_completedOn_monotonic_amended :
    (∀ (p : OrderParams) (now t : Int),
        (Order.mk p now)._completedOn = some t → (Order.mk p now)._createdOn ≤ t)
    ∧ (∀ (o : OrderState) (s : Int),
        ((∀ t, o._completedOn = some t → o._createdOn ≤ t) →
          ∀ t, (Order.setCompletedOn o (some s))._completedOn = some t →
            (Order.setCompletedOn o (some s))._createdOn ≤ t)
        ∧ (s < o._createdOn →
            (Order.setCompletedOn o (some s))._completedOn = o._completedOn))
    ∧ (∀ (w : World) (orc : Oracles) (now : Int) (id : String) (rec : OrderRec)
        (t : Int),
        jsTrim id = id → Order.isValidOrderId id = true →
        w.orders.lookup id = some rec → rec.id = some id →
        t ≠ 0 → t < rec.createdOn → orc.orderWriteOk = true →
        ∃ rec', (Order.put { id := id, completedOn := some t } w orc now).2.orders.lookup id =
            some rec'
          ∧ (Order.put { id := id, completedOn := some t } w orc now).1 = .ok rec'
          ∧ rec'.completedOn = none ∧ rec'.createdOn = rec.createdOn) := by
  refine ⟨?_, ?_, ?_⟩
  · intro p now t hm
    simp only [Order.mk, Order.setId, Order.setEmail, Order.setCreatedOn,
      Order.setCompletedOn, Order.setPaymentInfo, Order.setTotal,
      Order.setItems] at hm ⊢
    cases hp : p.completedOn with
    | none => rw [hp] at hm; cases hm
    | some v =>
      rw [hp] at hm
      simp only [] at hm
      by_cases hc : (p.createdOn.getD now) ≤ v
      · rw [if_pos hc] at hm
        cases hm
        exact hc
      · rw [if_neg hc] at hm
        cases hm
  · intro o s
    constructor
    · intro hinv t hm
      simp only [Order.setCompletedOn] at hm ⊢
      by_cases hc : o._createdOn ≤ s
      · rw [if_pos hc] at hm
        cases hm
        exact hc
      · rw [if_neg hc] at hm
        exact hinv t hm
    · intro hlt
      simp [Order.setCompletedOn, not_le.2 hlt]
  · intro w orc now id rec t htrim hid hrec hrid htnz htlt hwok
    have hnle : ¬ (rec.createdOn ≤ t) := not_le.2 htlt
    simp [Order.put, Order.mk, OrderRec.toParams, Order.setId, Order.setEmail,
      Order.setCreatedOn, Order.setCompletedOn, Order.setPaymentInfo,
      Order.setTotal, Order.setItems, Order.toJSON, htrim, hid, hrec, hrid,
      htnz, hwok, hnle, lookup_storePut_self]

/-- Witness for the amended C6 at concrete inputs: forging `completedOn :=
500` onto the stored order completed at 2000 (created at 1000) persists a
record whose `completedOn` is absent. -/
theorem C6_completedOn_monotonic_amended_witness :
    jsTrim "order000000000000001" = "order000000000000001"
    ∧ Order.isValidOrderId "order000000000000001" = true
    ∧ wDoneW.orders.lookup "order000000000000001" = some ordDoneW
    ∧ ordDoneW.id = some "order000000000000001"
    ∧ (500 : Int) ≠ 0 ∧ (500 : Int) < ordDoneW.createdOn
    ∧ orcW.orderWriteOk = true
    ∧ (∃ rec', (Order.put { id := "order000000000000001", completedOn := some 500 }
          wDoneW orcW 3000).2.orders.lookup "order000000000000001" = some rec'
        ∧ (Order.put { id := "order000000000000001", completedOn := some 500 }
            wDoneW orcW 3000).1 = .ok rec'
        ∧ rec'.completedOn = none ∧ rec'.createdOn = ordDoneW.createdOn) :=
  ⟨by decide, by decide, by decide, by decide, by decide, by decide, by decide,
    C6_completedOn_monotonic_amended.2.2 wDoneW orcW 3000 "order000000000000001"
      ordDoneW 500 (by decide) (by decide) (by decide) (by decide) (by decide)
      (by decide) (by decide)⟩

/-! ### Claim C7 — expired-token rejection at checkout -/

/-- Claim C7: a checkout presenting a token whose stored expiration is not
in the future is rejected with 403, the expired token record is deleted
from the token store as a side effect of `token.isValid`, no order is
created (the orders store is untouched), and no charge is issued. -/
theorem C7_expired_token_rejected (e tid : String) (st : Option String)
    (w : World) (orc : Oracles) (t0 t1 : Int) (newId : String) (trec : TokenRec)
    (hem : User.isValidEmail e = true) (hetr : jsTrim e = e)
    (hid : helpers.isValidTokenId tid = true) (htr : jsTrim tid = tid)
    (hrec : w.tokens.lookup tid = some trec)
    (hrid : trec.id = some tid)
    (hexp : trec.expiration.getD 0 ≤ t0) :
    User.checkout (some e) st (some tid) w orc t0 t1 newId =
      ⟨.tokenInvalid, { w with tokens := storeErase w.tokens tid }, [], 0⟩
    ∧ (storeErase w.tokens tid).lookup tid = none
    ∧ ({ w with tokens := storeErase w.tokens tid } : World).orders = w.orders := by
  have hnlt : ¬ (t0 < trec.expiration.getD 0) := not_lt.2 hexp
  refine ⟨?_, lookup_storeErase_self w.tokens tid, rfl⟩
  simp [User.checkout, Token.mk, Token.setEmail, Token.setId,
    Token.setExpiration, Token.isValid, Token.deleteById, Token.expirationNum,
    hem, hetr, hid, htr, hrec, hrid, hnlt]

/-- An expired stored token (expiration 10000000, checked at a later
instant). -/
theorem C7_expired_token_rejected_witness :
    User.isValidEmail "a@b.com" = true
    ∧ helpers.isValidTokenId "t0000000000000000001" = true
    ∧ wW.tokens.lookup "t0000000000000000001" = some tokRecW
    ∧ tokRecW.id = some "t0000000000000000001"
    ∧ tokRecW.expiration.getD 0 ≤ 99999999
    ∧ (User.checkout (some "a@b.com") none (some "t0000000000000000001") wW orcW
          99999999 99999999 "order000000000000001" =
        ⟨.tokenInvalid, { wW with tokens := storeErase wW.tokens "t0000000000000000001" },
          [], 0⟩
      ∧ (storeErase wW.tokens "t0000000000000000001").lookup "t0000000000000000001" = none
      ∧ ({ wW with tokens := storeErase wW.tokens "t0000000000000000001" } : World).orders =
          wW.orders) :=
  ⟨by decide, by decide, by decide, by decide, by decide,
    C7_expired_token_rejected "a@b.com" "t0000000000000000001" none wW orcW
      99999999 99999999 "order000000000000001" tokRecW (by decide) (by decide)
      (by decide) (by decide) (by decide) (by decide) (by decide)⟩

set_option maxHeartbeats 1600000 in
/-- Claim C8: for every checkout in which the payment charge succeeds (and
the 200 completion is reported — which requires the invoice dispatch to
report failure, see the C4 analysis) but the final persist of the user
record fails, the order remains completed and charged — the completed order
record stays in the store with its `paymentInfo` and `completedOn`, the
single charge request stands, nothing is reversed — and the failure is
surfaced as the user-update 500 error (`userPutFailed couldNotUpdate`), an
outcome distinct from a payment failure (`completeFailed (payFailed _)`);
the user record itself is left unchanged. -/
theorem C8_partial_success (e tid : String) (st : Option String) (w : World)
    (orc : Oracles) (t0 t1 : Int) (newId : String) (trec : TokenRec)
    (urec : UserRec) (p : Payment) (filtered : ItemMap)
    (hem : helpers.isValidEmail e = true) (hetr : jsTrim e = e)
    (hid : helpers.isValidTokenId tid = true) (htr : jsTrim tid = tid)
    (hrec : w.tokens.lookup tid = some trec) (hrid : trec.id = some tid)
    (hval : t0 < trec.expiration.getD 0)
    (htw : orc.tokenWriteOk = true)
    (hurec : w.users.lookup e = some urec) (hue : urec.email = some e)
    (hfiltered : filtered = urec.cart.filter
        (fun kv => (w.catalog.map (fun it => it.id)).contains kv.1))
    (hfne : filtered ≠ [])
    (hcat : ∀ it ∈ w.catalog, Item.isValidId it.id = true)
    (hnid : Order.isValidOrderId newId = true) (hntr : jsTrim newId = newId)
    (hfresh : w.orders.lookup newId = none) (hcreate : orc.orderCreateOk = true)
    (hpos : 0 < Order.orderTotal filtered w.catalog)
    (hgw : orc.gateway
      ({ amount := Order.orderTotal filtered w.catalog * 100,
         currency := "USD", source := Order.stripeSource st } : ChargeReq) = .ok p)
    (hobj : p.object = "charge") (hpaid : p.paid = true) (hst : p.status = "succeeded")
    (hord : orc.orderWriteOk = true)
    (hmail : orc.mailOk = false)
    (huw : orc.userWriteOk = false)
    (h0 : 0 < t0) (h01 : t0 ≤ t1) (h1e : t1 < t0 + 3600000) :
    (User.checkout (some e) st (some tid) w orc t0 t1 newId).res =
      .userPutFailed .couldNotUpdate
    ∧ (User.checkout (some e) st (some tid) w orc t0 t1 newId).charges =
        [{ amount := Order.orderTotal filtered w.catalog * 100,
           currency := "USD", source := Order.stripeSource st }]
    ∧ (User.checkout (some e) st (some tid) w orc t0 t1 newId).w.orders.lookup newId =
        some { id := some newId, email := some e, createdOn := t0,
               completedOn := some t1, paymentInfo := some p,
               total := Order.orderTotal filtered w.catalog, items := filtered }
    ∧ (User.checkout (some e) st (some tid) w orc t0 t1 newId).w.users = w.users := by
  -- derived facts
  have he1 : t0 + 3600000 ≠ 0 := by omega
  have hlt1 : t0 < t0 + 3600000 := by omega
  have ht1nz : t1 ≠ 0 := by omega
  have hcne : urec.cart ≠ [] := by
    intro hc
    rw [hc] at hfiltered
    simp at hfiltered
    exact hfne hfiltered
  have hall : filtered.all (fun kv => Item.isValidId kv.1) = true := by
    rw [List.all_eq_true]
    intro kv hkv
    rw [hfiltered] at hkv
    have hc := List.of_mem_filter hkv
    have hmem : kv.1 ∈ w.catalog.map (fun it => it.id) := by
      simpa [List.elem_iff] using hc
    obtain ⟨it, hit, hidq⟩ := List.mem_map.mp hmem
    rw [← hidq]
    exact hcat it hit
  have hff : filtered.filter
      (fun kv => (w.catalog.map (fun it => it.id)).contains kv.1) = filtered := by
    apply List.filter_eq_self.mpr
    intro a ha
    rw [hfiltered] at ha
    simpa using List.of_mem_filter ha
  have htot0 : Order.orderTotal filtered w.catalog ≠ 0 := ne_of_gt hpos
  have htotle : (0 : Rat) ≤ Order.orderTotal filtered w.catalog := le_of_lt hpos
  -- A. the checkout-level token instance and its validation at t0
  have hmkid : (Token.mk (some e) (some tid) none)._id = some tid := by
    simp [Token.mk, Token.setEmail, Token.setId, Token.setExpiration, htr, hid]
  have hisv : Token.isValid (Token.mk (some e) (some tid) none) w t0 =
      (true, { Token.mk (some e) (some tid) none with
               _expiration := trec.expiration }, w) := by
    simp [Token.isValid, hmkid, hrec, hrid, Token.expirationNum, hval]
  -- B. the first token extension (inside User.get), on the original store
  have htokE1 : ∀ x : TokenRec, x = Token.toJSON (Token.setExpiration
      (Token.mk trec.email trec.id trec.expiration) (some (t0 + 3600000))) →
      x.id = some tid ∧ x.expiration = some (t0 + 3600000) := by
    intro x hx
    subst hx
    constructor
    · simp [Token.toJSON, Token.setExpiration, Token.mk, Token.setId,
        Token.setEmail, hrid, hid, htr]
    · simp [Token.toJSON, Token.setExpiration, Token.mk, Token.setId,
        Token.setEmail, he1]
  obtain ⟨htokE1id, htokE1exp⟩ := htokE1 _ rfl
  have hext1 : ∀ tk : TokenState, tk._id = some tid →
      Token.extend tk w orc t0 =
        { w with tokens := storePut w.tokens tid (Token.toJSON
            (Token.setExpiration (Token.mk trec.email trec.id trec.expiration)
              (some (t0 + 3600000)))) } := by
    intro tk hk
    simp [Token.extend, hk, hid, htr, hrec, hrid, Token.expirationNum, hval,
      htw, Token.mk, Token.setEmail, Token.setId, Token.setExpiration]
  have htok1id : ({ Token.mk (some e) (some tid) none with
      _expiration := trec.expiration } : TokenState)._id = some tid := hmkid
  -- C. User.get: revalidates the token, reads the user record, strips the
  -- password from the response, and extends the token
  have hget : User.get (some e) (some tid) w orc t0 =
      (.ok { email := some e, password := none,
             firstName := jsTrim urec.firstName, lastName := jsTrim urec.lastName,
             streetAddress := jsTrim urec.streetAddress, cart := urec.cart,
             orders := urec.orders },
        { w with tokens := storePut w.tokens tid (Token.toJSON
            (Token.setExpiration (Token.mk trec.email trec.id trec.expiration)
              (some (t0 + 3600000)))) }) := by
    simp [User.get, User.isValidEmail, hem, hetr, htr, hid, hisv, hurec,
      User.mk, User.toJSON, UserRec.toParams, hue, Token.isValidUserId,
      hext1 _ htok1id]
  -- D. the second token extension (checkout's own), on the once-extended
  -- store
  have htokE2 : ∀ x : TokenRec, x = Token.toJSON (Token.setExpiration
      (Token.mk (Token.toJSON (Token.setExpiration
          (Token.mk trec.email trec.id trec.expiration)
          (some (t0 + 3600000)))).email
        (Token.toJSON (Token.setExpiration
          (Token.mk trec.email trec.id trec.expiration)
          (some (t0 + 3600000)))).id
        (Token.toJSON (Token.setExpiration
          (Token.mk trec.email trec.id trec.expiration)
          (some (t0 + 3600000)))).expiration)
      (some (t0 + 3600000))) →
      x.id = some tid ∧ x.expiration = some (t0 + 3600000) := by
    intro x hx
    subst hx
    constructor
    · simp [Token.toJSON, Token.setExpiration, Token.mk, Token.setId,
        Token.setEmail, hrid, hid, htr]
    · simp [Token.toJSON, Token.setExpiration, Token.mk, Token.setId,
        Token.setEmail, he1]
  obtain ⟨htokE2id, htokE2exp⟩ := htokE2 _ rfl
  have hext2 : ∀ tk : TokenState, tk._id = some tid →
      Token.extend tk { w with tokens := storePut w.tokens tid (Token.toJSON
          (Token.setExpiration (Token.mk trec.email trec.id trec.expiration)
            (some (t0 + 3600000)))) } orc t0 =
        { w with tokens := storePut (storePut w.tokens tid (Token.toJSON
            (Token.setExpiration (Token.mk trec.email trec.id trec.expiration)
              (some (t0 + 3600000))))) tid (Token.toJSON (Token.setExpiration
            (Token.mk (Token.toJSON (Token.setExpiration
                (Token.mk trec.email trec.id trec.expiration)
                (some (t0 + 3600000)))).email
              (Token.toJSON (Token.setExpiration
                (Token.mk trec.email trec.id trec.expiration)
                (some (t0 + 3600000)))).id
              (Token.toJSON (Token.setExpiration
                (Token.mk trec.email trec.id trec.expiration)
                (some (t0 + 3600000)))).expiration)
            (some (t0 + 3600000)))) } := by
    intro tk hk
    simp only [Token.extend, hk, hid, htr, if_true, lookup_storePut_self]
    simp [Token.mk, Token.setEmail, Token.setId, Token.setExpiration,
      Token.expirationNum, Token.toJSON, hrid, he1, hlt1, htw, hid, htr]
  -- name the two extended token records and the created/completed order
  -- records
  set T1 : TokenRec := Token.toJSON (Token.setExpiration
      (Token.mk trec.email trec.id trec.expiration) (some (t0 + 3600000)))
    with hT1
  set T2 : TokenRec := Token.toJSON (Token.setExpiration
      (Token.mk T1.email T1.id T1.expiration) (some (t0 + 3600000))) with hT2
  -- F. Order.post on the twice-extended store
  have hpost : Order.post (some e) (some urec.cart)
      { w with tokens := storePut (storePut w.tokens tid T1) tid T2 } orc t0 newId =
      (.ok { id := some newId, email := some e, createdOn := t0,
             completedOn := none, paymentInfo := none, total := 0,
             items := filtered },
        { w with tokens := storePut (storePut w.tokens tid T1) tid T2,
                 orders := (storePut w.orders newId
            { id := some newId, email := some e, createdOn := t0,
              completedOn := none, paymentInfo := none, total := 0,
              items := filtered }) }) := by
    have h := post_ok_eval e urec.cart
      { w with tokens := storePut (storePut w.tokens tid T1) tid T2 } orc t0
      newId filtered hem hetr (by simpa using hcat) hnid hntr
      (by simpa using hfresh) hcreate (by simpa using hfiltered) hfne
    simpa using h
  -- G. rebuilding the order instance from the posted record
  have hmkord : Order.mk (OrderRec.toParams
      { id := some newId, email := some e, createdOn := t0,
        completedOn := none, paymentInfo := none, total := 0,
        items := filtered }) t0 =
      { _id := some newId, _email := some e, _createdOn := t0,
        _completedOn := none, _paymentInfo := none, _total := 0,
        _items := some filtered } := by
    have hem' : helpers.isValidEmail e = true := hem
    have hnid' : helpers.isValidOrderId newId = true := hnid
    simp [Order.mk, OrderRec.toParams, Order.setId, Order.setEmail,
      Order.setCreatedOn, Order.setCompletedOn, Order.setPaymentInfo,
      Order.setTotal, Order.setItems, hnid', hntr, hall, hetr, hem',
      Order.isValidEmail, Order.isValidOrderId]
  -- H. completing the rebuilt order against the posted store: one charge,
  -- the order persisted as completed, the invoice dispatch failing (hmail)
  -- so complete reports the 200 receipt
  have hcomp : Order.complete
      { _id := some newId, _email := some e, _createdOn := t0,
        _completedOn := none, _paymentInfo := none, _total := 0,
        _items := some filtered } st
      { w with tokens := storePut (storePut w.tokens tid T1) tid T2,
               orders := (storePut w.orders newId
          { id := some newId, email := some e, createdOn := t0,
            completedOn := none, paymentInfo := none, total := 0,
            items := filtered }) } orc t1 =
      ⟨.doneReceiptInfo (.ok
          { id := some newId, email := some e, createdOn := t0,
            completedOn := some t1, paymentInfo := some p,
            total := Order.orderTotal filtered w.catalog, items := filtered }),
        { _id := some newId, _email := some e, _createdOn := t0,
          _completedOn := some t1, _paymentInfo := some p,
          _total := Order.orderTotal filtered w.catalog,
          _items := some filtered },
        { w with tokens := storePut (storePut w.tokens tid T1) tid T2,
                 orders := (storePut (storePut w.orders newId
            { id := some newId, email := some e, createdOn := t0,
              completedOn := none, paymentInfo := none, total := 0,
              items := filtered }) newId
            { id := some newId, email := some e, createdOn := t0,
              completedOn := some t1, paymentInfo := some p,
              total := Order.orderTotal filtered w.catalog,
              items := filtered }) },
        [{ amount := Order.orderTotal filtered w.catalog * 100,
           currency := "USD", source := Order.stripeSource st }], 1⟩ := by
    have hem' : helpers.isValidEmail e = true := hem
    have hnid' : helpers.isValidOrderId newId = true := hnid
    simp [Order.complete, Order.completeGuard, Order.put, Order.mk,
      OrderRec.toParams, Order.setId, Order.setEmail, Order.setCreatedOn,
      Order.setCompletedOn, Order.setPaymentInfo, Order.setTotal,
      Order.setItems, Order.toJSON, lookup_storePut_self,
      hpos, htotle, hgw, hobj, hpaid, hst, ht1nz, htot0, h01, hff, hfne,
      hall, hnid', hntr, hem', hetr, hord, hmail]
    have hemO : Order.isValidEmail e = true := hem
    have hnidO : Order.isValidOrderId newId = true := hnid
    have hff2 : List.filter (fun kv => decide (∃ a ∈ w.catalog, a.id = kv.1))
        filtered = filtered := by
      simpa using hff
    simp [hnidO, hemO, hetr, hff2, hfne, hall, ht1nz, htot0, hpos, h01]
  -- J. the final user persist fails; the put still re-validates and
  -- re-extends the token
  have he2 : t1 + 3600000 ≠ 0 := by omega
  have hisv5 : Token.isValid (Token.mk (some e) (some tid) none)
      { w with tokens := storePut (storePut w.tokens tid T1) tid T2,
               orders := (storePut (storePut w.orders newId
          { id := some newId, email := some e, createdOn := t0,
            completedOn := none, paymentInfo := none, total := 0,
            items := filtered }) newId
          { id := some newId, email := some e, createdOn := t0,
            completedOn := some t1, paymentInfo := some p,
            total := Order.orderTotal filtered w.catalog,
            items := filtered }) } t1 =
      (true, { Token.mk (some e) (some tid) none with
               _expiration := T2.expiration },
        { w with tokens := storePut (storePut w.tokens tid T1) tid T2,
                 orders := (storePut (storePut w.orders newId
            { id := some newId, email := some e, createdOn := t0,
              completedOn := none, paymentInfo := none, total := 0,
              items := filtered }) newId
            { id := some newId, email := some e, createdOn := t0,
              completedOn := some t1, paymentInfo := some p,
              total := Order.orderTotal filtered w.catalog,
              items := filtered }) }) := by
    simp [Token.isValid, hmkid, lookup_storePut_self, htokE2id,
      Token.expirationNum, htokE2exp, h1e]
  have hmkexp : ∀ (a b : Option String) (c : Option Int),
      (Token.mk a b c)._expiration = c := by
    intro a b c
    simp [Token.mk, Token.setEmail, Token.setId, Token.setExpiration]
  have hmkid2 : ∀ (a : Option String) (c : Option Int),
      (Token.mk a (some tid) c)._id = some tid := by
    intro a c
    simp [Token.mk, Token.setEmail, Token.setId, Token.setExpiration, hid, htr]
  have hext3 : ∀ tk : TokenState, tk._id = some tid →
      Token.extend tk
        { w with tokens := storePut (storePut w.tokens tid T1) tid T2,
                 orders := (storePut (storePut w.orders newId
            { id := some newId, email := some e, createdOn := t0,
              completedOn := none, paymentInfo := none, total := 0,
              items := filtered }) newId
            { id := some newId, email := some e, createdOn := t0,
              completedOn := some t1, paymentInfo := some p,
              total := Order.orderTotal filtered w.catalog,
              items := filtered }) } orc t1 =
        { w with tokens := (storePut (storePut (storePut w.tokens tid T1) tid T2)
            tid (Token.toJSON (Token.setExpiration
              (Token.mk T2.email T2.id T2.expiration) (some (t1 + 3600000))))),
                 orders := (storePut (storePut w.orders newId
            { id := some newId, email := some e, createdOn := t0,
              completedOn := none, paymentInfo := none, total := 0,
              items := filtered }) newId
            { id := some newId, email := some e, createdOn := t0,
              completedOn := some t1, paymentInfo := some p,
              total := Order.orderTotal filtered w.catalog,
              items := filtered }) } := by
    intro tk hk
    simp only [Token.extend, hk, hid, htr, if_true, lookup_storePut_self]
    simp [Token.expirationNum, hmkexp, hmkid2, htokE2id, htokE2exp, h1e, htw]
  have htok2id : ({ Token.mk (some e) (some tid) none with
      _expiration := T2.expiration } : TokenState)._id = some tid := hmkid
  have hemU : Token.isValidUserId e = true := hem
  have hput : User.put
      { email := some e, cart := some ([] : ItemMap),
        orders := some (urec.orders ++ [newId]) } (some tid)
      { w with tokens := storePut (storePut w.tokens tid T1) tid T2,
               orders := (storePut (storePut w.orders newId
          { id := some newId, email := some e, createdOn := t0,
            completedOn := none, paymentInfo := none, total := 0,
            items := filtered }) newId
          { id := some newId, email := some e, createdOn := t0,
            completedOn := some t1, paymentInfo := some p,
            total := Order.orderTotal filtered w.catalog,
            items := filtered }) } orc t1 =
      (.couldNotUpdate,
        { w with tokens := (storePut (storePut (storePut w.tokens tid T1) tid T2)
            tid (Token.toJSON (Token.setExpiration
              (Token.mk T2.email T2.id T2.expiration) (some (t1 + 3600000))))),
                 orders := (storePut (storePut w.orders newId
            { id := some newId, email := some e, createdOn := t0,
              completedOn := none, paymentInfo := none, total := 0,
              items := filtered }) newId
            { id := some newId, email := some e, createdOn := t0,
              completedOn := some t1, paymentInfo := some p,
              total := Order.orderTotal filtered w.catalog,
              items := filtered }) }) := by
    simp [User.put, User.isValidEmail, hem, hetr, htr, hid, hisv5, hurec, hue,
      User.mk, UserRec.toParams, User.toJSON, Token.isValidUserId, huw,
      hext3 _ htok2id]
  -- K. assembling the checkout run
  have hckr : User.checkout (some e) st (some tid) w orc t0 t1 newId =
      ⟨.userPutFailed .couldNotUpdate,
        { w with tokens := (storePut (storePut (storePut w.tokens tid T1) tid T2)
            tid (Token.toJSON (Token.setExpiration
              (Token.mk T2.email T2.id T2.expiration) (some (t1 + 3600000))))),
                 orders := (storePut (storePut w.orders newId
            { id := some newId, email := some e, createdOn := t0,
              completedOn := none, paymentInfo := none, total := 0,
              items := filtered }) newId
            { id := some newId, email := some e, createdOn := t0,
              completedOn := some t1, paymentInfo := some p,
              total := Order.orderTotal filtered w.catalog,
              items := filtered }) },
        [{ amount := Order.orderTotal filtered w.catalog * 100,
           currency := "USD", source := Order.stripeSource st }], 1⟩ := by
    simp only [User.checkout, User.isValidEmail, hem, hetr, htr, hid, if_true]
    rw [hisv]
    simp [hget, hext2 _ htok1id, User.mk, UserRec.toParams, hemU, hetr, hcne,
      hpost, hmkord, hcomp, Order.CompleteRes.statusIs200, Order.PutRes.status,
      hput]
  rw [hckr]
  refine ⟨rfl, rfl, ?_, rfl⟩
  simpa using lookup_storePut_self (storePut w.orders newId
    { id := some newId, email := some e, createdOn := t0,
      completedOn := none, paymentInfo := none, total := 0,
      items := filtered }) newId
    { id := some newId, email := some e, createdOn := t0,
      completedOn := some t1, paymentInfo := some p,
      total := Order.orderTotal filtered w.catalog, items := filtered }

/-- Witness for C8 at concrete inputs: the fixture checkout with the charge
succeeding, the invoice mail failing and the user persist failing. -/
theorem C8_partial_success_witness :
    orcPartialW.mailOk = false ∧ orcPartialW.userWriteOk = false
    ∧ orcPartialW.gateway
        ({ amount := Order.orderTotal [("item000001", 2)] wW.catalog * 100,
           currency := "USD", source := Order.stripeSource none } : ChargeReq) =
        .ok payOkW
    ∧ ((User.checkout (some "a@b.com") none (some "t0000000000000000001") wW
          orcPartialW 1000 2000 "order000000000000001").res =
        .userPutFailed .couldNotUpdate
      ∧ (User.checkout (some "a@b.com") none (some "t0000000000000000001") wW
          orcPartialW 1000 2000 "order000000000000001").charges =
          [{ amount := Order.orderTotal [("item000001", 2)] wW.catalog * 100,
             currency := "USD", source := Order.stripeSource none }]
      ∧ (User.checkout (some "a@b.com") none (some "t0000000000000000001") wW
          orcPartialW 1000 2000 "order000000000000001").w.orders.lookup
            "order000000000000001" =
          some { id := some "order000000000000001", email := some "a@b.com",
                 createdOn := 1000, completedOn := some 2000,
                 paymentInfo := some payOkW,
                 total := Order.orderTotal [("item000001", 2)] wW.catalog,
                 items := [("item000001", 2)] }
      ∧ (User.checkout (some "a@b.com") none (some "t0000000000000000001") wW
          orcPartialW 1000 2000 "order000000000000001").w.users = wW.users) :=
  ⟨rfl, rfl, rfl,
    C8_partial_success "a@b.com" "t0000000000000000001" none wW orcPartialW
      1000 2000 "order000000000000001" tokRecW usrW payOkW [("item000001", 2)]
      (by decide) (by decide) (by decide) (by decide) (by decide) (by decide)
      (by decide) rfl (by decide) (by decide) (by decide) (by decide)
      (by decide) (by decide) (by decide) (by decide) (by decide) (by decide)
      rfl rfl rfl rfl rfl rfl rfl (by decide) (by decide) (by decide)⟩

end PizzaApp
